import Mathlib

/-
  Verification development for the drawing-board room server
  (backend/main.py): room lifecycle, round state machine, submission
  collection and judgment triggering, shallowly embedded in Lean.

  Conventions of the embedding:
  * Python `datetime` values are modelled as `Int` timestamps in seconds;
    `(now - round_start_time).total_seconds() >= duration` becomes
    `duration ≤ now - t`.
  * `uuid` player ids and room codes are opaque `String`s supplied by the
    caller of each step (their generation is external randomness).
  * `random.choice(PREDEFINED_TOPICS)` is modelled by an arbitrary index
    `k`, reduced modulo the list length.
  * Each FastAPI handler mutates the stored room in place and may then
    `raise`; accordingly every handler is embedded as a function returning
    the room state as it stands when the handler finishes (normally or by
    exception), paired with the optional error raised.  `leave_room`
    returns `none` when the room is deleted from the registry.
  * The external Gemini judge is an abstract function from the submission
    list to a reply (summary and winner name); `run_gemini_judgment` is
    parametrised by it.
-/

namespace DrawingBoard

/-! ## Constants (backend/main.py lines 26-35) -/

def MAX_PLAYERS_PER_ROOM : Nat := 6

def MIN_PLAYERS_TO_START : Nat := 2

def ROUND_DURATION_SECONDS : Int := 100

def PREDEFINED_TOPICS : List String :=
  ["Apple", "Banana", "Car", "Dog", "Elephant", "Flower", "Guitar", "House",
   "Ice Cream", "Jacket", "Kite", "Lion", "Moon", "Ninja", "Octopus", "Pizza",
   "Queen", "Robot", "Sun", "Tree", "Umbrella", "Volcano", "Watch", "Xylophone",
   "Yacht", "Zebra", "Book", "Chair", "Cloud", "Dragon", "Fish", "Ghost"]

/-! ## Data model (backend/main.py lines 38-90) -/

structure Player where
  id : String
  name : String
deriving DecidableEq

inductive GamePhase where
  | lobby
  | drawing
  | round_transition
  | game_over
deriving DecidableEq

structure SubmittedDrawing where
  drawer_id : String
  drawer_name : String
  topic : String
  image_b64 : String
deriving DecidableEq

/-- Judgment dict stored in `room.judgment_result`:
keys summary, winner_id, winner_name. -/
structure JudgmentResult where
  summary : String
  winner_id : String
  winner_name : String
deriving DecidableEq

structure Room where
  name : String
  code : String
  host_id : String
  players : List Player
  max_players : Nat := MAX_PLAYERS_PER_ROOM
  game_phase : GamePhase := GamePhase.lobby
  current_topic : Option String := none
  round_start_time : Option Int := none
  round_duration_seconds : Int := ROUND_DURATION_SECONDS
  submitted_drawings : List SubmittedDrawing := []
  judgment_result : Option JudgmentResult := none
deriving DecidableEq

/-- Reply extracted from the external judge: the parsed summary text and
the parsed winner display name (both possibly empty on failure). -/
structure JudgeReply where
  summary : String
  winner_name : String

/-- The external judge (`call_gemini_judge`) as a black-box function of the
submission list. -/
def JudgeFn : Type := List SubmittedDrawing → JudgeReply

/-- Errors a handler can raise at room level.  `notFound` (unknown room
code) happens at registry level, before any room is touched, and
`roomClosed` is the distinguished deletion outcome of leave, so neither
appears here. -/
inductive ApiError where
  | forbidden
  | badRequest
deriving DecidableEq

/-! ## Helper functions -/

/-- Python `x or default` applied to an optional string: the default is
taken when `x` is `None` or the empty string (both falsy). -/
def py_or_string (x : Option String) (default : String) : String :=
  match x with
  | some s => if s = "" then default else s
  | none => default

/-- Embeds `get_player_name_by_id` (main.py lines 99-103): first player
with the given id, if any. -/
def get_player_name_by_id (room : Room) (player_id : String) : Option String :=
  (room.players.find? (fun p => p.id == player_id)).map Player.name

/-- Embeds `_select_new_topic` (main.py lines 191-193): a choice from
`PREDEFINED_TOPICS`, the random draw modelled by the index `k`. -/
def select_new_topic (k : Nat) : String :=
  PREDEFINED_TOPICS.getD (k % PREDEFINED_TOPICS.length) "Apple"

/-- Embeds `_reset_game_state_fields` (main.py lines 195-199).  Note that
`judgment_result` is NOT reset by the source. -/
def reset_game_state_fields (room : Room) (new_phase : GamePhase) : Room :=
  { room with
      game_phase := new_phase
      current_topic := none
      round_start_time := none
      submitted_drawings := [] }

/-- Room display name: `room_data.name if room_data.name else f"Room
{room_code}"` with `None` and `""` falsy (main.py line 118). -/
def room_display_name (n : Option String) (code : String) : String :=
  py_or_string n ("Room " ++ code)

/-! ## Handlers -/

/-- Embeds `create_new_room` (main.py lines 113-124): fresh room with the
host as sole player.  The generated room code and host uuid are inputs. -/
def create_new_room (room_name : Option String) (code host_id host_name : String) : Room :=
  { name := room_display_name room_name code
    code := code
    host_id := host_id
    players := [{ id := host_id, name := host_name }] }

/-- Embeds `join_existing_room` (main.py lines 126-140).  The fresh uuid of
the joining player is the input `new_id`. -/
def join_existing_room (room : Room) (new_id player_name : String) :
    Room × Option ApiError :=
  if room.game_phase ≠ GamePhase.lobby ∧ room.game_phase ≠ GamePhase.game_over then
    (room, some ApiError.forbidden)
  else if room.max_players ≤ room.players.length then
    (room, some ApiError.forbidden)
  else
    ({ room with players := room.players ++ [{ id := new_id, name := player_name }] }, none)

/-- Embeds the test `player_id_to_leave in room.submitted_drawings`
(main.py line 165).  Python `in` compares the `str` with each
`SubmittedDrawing` model via `==`, which is `False` for every element, so
the test never succeeds and the removal branch under it is dead code. -/
def player_id_in_drawings (player_id : String) (ds : List SubmittedDrawing) : Bool :=
  ds.any (fun _ => false)

/-- Embeds the `pop` of the first drawing whose `drawer_id` matches
(main.py lines 168-169). -/
def remove_first_drawing_by (player_id : String) :
    List SubmittedDrawing → List SubmittedDrawing
  | [] => []
  | d :: rest =>
    if d.drawer_id == player_id then rest
    else d :: remove_first_drawing_by player_id rest

/-- The mutation block of `leave_room` once the player is known to be
present and other players remain (main.py lines 164-186): drawing removal
(dead code, see `player_id_in_drawings`), host reassignment, and the
under-minimum round abort, which clears `current_topic` but not
`round_start_time`. -/
def leave_update (room : Room) (pid : String) (players_after : List Player) : Room :=
  let drawings_after :=
    if player_id_in_drawings pid room.submitted_drawings then
      remove_first_drawing_by pid room.submitted_drawings
    else room.submitted_drawings
  let host_after :=
    if room.host_id = pid then (players_after.headD { id := "", name := "" }).id
    else room.host_id
  let room1 : Room :=
    { room with
        players := players_after
        submitted_drawings := drawings_after
        host_id := host_after }
  if (room1.game_phase ≠ GamePhase.lobby ∧ room1.game_phase ≠ GamePhase.game_over) ∧
      players_after.length < MIN_PLAYERS_TO_START then
    { room1 with game_phase := GamePhase.game_over, current_topic := none }
  else room1

/-- Embeds `leave_room` (main.py lines 142-187).  `none` means the room was
deleted from the registry (last player left); a missing player is a no-op
success. -/
def leave_room (room : Room) (player_id_to_leave : String) : Option Room :=
  if room.players.all (fun p => p.id != player_id_to_leave) then
    some room
  else if (room.players.filter (fun p => p.id != player_id_to_leave)).isEmpty then
    none
  else
    some (leave_update room player_id_to_leave
      (room.players.filter (fun p => p.id != player_id_to_leave)))

/-- Embeds `start_game` (main.py lines 204-225).  `k` models the random
topic choice and `now` the clock reading. -/
def start_game (room : Room) (player_id : String) (k : Nat) (now : Int) :
    Room × Option ApiError :=
  if room.host_id ≠ player_id then (room, some ApiError.forbidden)
  else if room.game_phase ≠ GamePhase.lobby then (room, some ApiError.badRequest)
  else if room.players.length < MIN_PLAYERS_TO_START then (room, some ApiError.badRequest)
  else
    ({ reset_game_state_fields room GamePhase.drawing with
        current_topic := some (select_new_topic k)
        round_start_time := some now }, none)

/-- Embeds `submit_drawing_and_advance_turn` (main.py lines 227-255):
phase check, duplicate check, append of the snapshotted drawing, and the
early end when all players have submitted.  Note the source never checks
that `player_id` belongs to a player of the room. -/
def submit_drawing_and_advance_turn (room : Room) (player_id image_b64 : String) :
    Room × Option ApiError :=
  if room.game_phase ≠ GamePhase.drawing then (room, some ApiError.badRequest)
  else if room.submitted_drawings.any (fun d => d.drawer_id == player_id) then
    (room, some ApiError.badRequest)
  else
    let drawing : SubmittedDrawing :=
      { drawer_id := player_id
        drawer_name := py_or_string (get_player_name_by_id room player_id) "Unknown Drawer"
        topic := py_or_string room.current_topic "No Topic"
        image_b64 := image_b64 }
    let drawings_after := room.submitted_drawings ++ [drawing]
    ({ room with
        submitted_drawings := drawings_after
        game_phase :=
          if room.players.length ≤ drawings_after.length then GamePhase.game_over
          else room.game_phase }, none)

/-- Embeds `play_again` (main.py lines 257-279).  On the player-shortfall
path the room is reset to lobby and THEN the error is raised, so the
returned state differs from the input. -/
def play_again (room : Room) (player_id : String) (k : Nat) (now : Int) :
    Room × Option ApiError :=
  if room.host_id ≠ player_id then (room, some ApiError.forbidden)
  else if room.game_phase ≠ GamePhase.game_over then (room, some ApiError.badRequest)
  else if room.players.length < MIN_PLAYERS_TO_START then
    (reset_game_state_fields room GamePhase.lobby, some ApiError.badRequest)
  else
    ({ reset_game_state_fields room GamePhase.drawing with
        current_topic := some (select_new_topic k)
        round_start_time := some now }, none)

/-- Embeds `run_gemini_judgment` (main.py lines 404-431): degenerate local
result on zero submissions, otherwise the external judge is called and the
winner id resolved as the first drawer whose display name matches.  The
stored result is written unconditionally (no presence guard here). -/
def run_gemini_judgment (room : Room) (judge : JudgeFn) : Room :=
  if room.submitted_drawings.isEmpty then
    let no_drawings : JudgmentResult :=
      { summary := "No drawings to judge.", winner_id := "", winner_name := "" }
    { room with judgment_result := some no_drawings }
  else
    let result := judge room.submitted_drawings
    let winner_id :=
      ((room.submitted_drawings.find?
          (fun d => d.drawer_name == result.winner_name)).map
        SubmittedDrawing.drawer_id).getD ""
    let stored : JudgmentResult :=
      { summary := result.summary, winner_id := winner_id, winner_name := result.winner_name }
    { room with judgment_result := some stored }

/-- Embeds `judge_room` (main.py lines 433-443): phase check, then the
judgment task is enqueued (its later execution is `run_gemini_judgment`)
and the room returned unchanged.  There is no `judgment_result` presence
check on this path. -/
def judge_room (room : Room) : Room × Option ApiError :=
  if room.game_phase ≠ GamePhase.game_over then (room, some ApiError.badRequest)
  else (room, none)

/-- Python `not room.judgment_result` (main.py line 458): `None` is falsy
and every stored result is a non-empty dict, hence truthy. -/
def judgment_absent (room : Room) : Bool := room.judgment_result.isNone

/-- The timeout check of `get_room_details` (main.py lines 451-456): in
drawing phase with a set start time, an elapsed time at or past the round
duration forces the phase to game-over. -/
def apply_timeout (room : Room) (now : Int) : Room :=
  match room.round_start_time with
  | some t =>
    if room.game_phase = GamePhase.drawing ∧ room.round_duration_seconds ≤ now - t then
      { room with game_phase := GamePhase.game_over }
    else room
  | none => room

/-- Embeds `get_room_details` (main.py lines 445-460): lazy timeout
transition, then judgment triggering when the room is in game-over without
a stored result. -/
def get_room_details (room : Room) (now : Int) (judge : JudgeFn) : Room :=
  let room1 := apply_timeout room now
  if room1.game_phase = GamePhase.game_over ∧ judgment_absent room1 then
    run_gemini_judgment room1 judge
  else room1

/-! ## Reachability

A room is reachable when it arises from room creation by any sequence of
handler calls, including erroneous calls (which may, on the play-again
shortfall path, still mutate), `get` reads and background judgment task
executions. -/

inductive Reachable : Room → Prop where
  | created (room_name : Option String) (code host_id host_name : String) :
      Reachable (create_new_room room_name code host_id host_name)
  | stepJoin {r : Room} (new_id player_name : String) :
      Reachable r → Reachable (join_existing_room r new_id player_name).1
  | stepLeave {r r' : Room} (player_id : String) :
      Reachable r → leave_room r player_id = some r' → Reachable r'
  | stepStart {r : Room} (player_id : String) (k : Nat) (now : Int) :
      Reachable r → Reachable (start_game r player_id k now).1
  | stepSubmit {r : Room} (player_id image_b64 : String) :
      Reachable r → Reachable (submit_drawing_and_advance_turn r player_id image_b64).1
  | stepPlayAgain {r : Room} (player_id : String) (k : Nat) (now : Int) :
      Reachable r → Reachable (play_again r player_id k now).1
  | stepJudge {r : Room} :
      Reachable r → Reachable (judge_room r).1
  | stepGet {r : Room} (now : Int) (judge : JudgeFn) :
      Reachable r → Reachable (get_room_details r now judge)
  | stepTask {r : Room} (judge : JudgeFn) :
      Reachable r → Reachable (run_gemini_judgment r judge)

/-! ## Structural lemmas about the handlers -/

theorem player_id_in_drawings_eq_false (pid : String) (ds : List SubmittedDrawing) :
    player_id_in_drawings pid ds = false := by
  simp [player_id_in_drawings]

theorem judge_room_fst (r : Room) : (judge_room r).1 = r := by
  unfold judge_room
  split <;> rfl

theorem run_gemini_fields (r : Room) (j : JudgeFn) :
    (run_gemini_judgment r j).players = r.players ∧
    (run_gemini_judgment r j).host_id = r.host_id ∧
    (run_gemini_judgment r j).submitted_drawings = r.submitted_drawings ∧
    (run_gemini_judgment r j).current_topic = r.current_topic ∧
    (run_gemini_judgment r j).round_start_time = r.round_start_time ∧
    (run_gemini_judgment r j).game_phase = r.game_phase := by
  unfold run_gemini_judgment
  split <;> exact ⟨rfl, rfl, rfl, rfl, rfl, rfl⟩

theorem apply_timeout_judgment (r : Room) (now : Int) :
    (apply_timeout r now).judgment_result = r.judgment_result := by
  unfold apply_timeout
  split
  · split
    · rfl
    · rfl
  · rfl

theorem apply_timeout_expired (r : Room) (now t : Int)
    (hphase : r.game_phase = GamePhase.drawing)
    (hstart : r.round_start_time = some t)
    (helapsed : r.round_duration_seconds ≤ now - t) :
    (apply_timeout r now).game_phase = GamePhase.game_over := by
  unfold apply_timeout
  rw [hstart]
  simp [hphase, helapsed]

/-! ## Error paths leave the room unchanged (except the play-again shortfall) -/

theorem join_error_no_mutation (r : Room) (nid pname : String) :
    (join_existing_room r nid pname).2.isSome = true →
    (join_existing_room r nid pname).1 = r := by
  unfold join_existing_room
  split
  · intro _; rfl
  split
  · intro _; rfl
  · intro h
    simp at h

theorem start_error_no_mutation (r : Room) (pid : String) (k : Nat) (now : Int) :
    (start_game r pid k now).2.isSome = true → (start_game r pid k now).1 = r := by
  unfold start_game
  split
  · intro _; rfl
  split
  · intro _; rfl
  split
  · intro _; rfl
  · intro h
    simp at h

theorem submit_error_no_mutation (r : Room) (pid img : String) :
    (submit_drawing_and_advance_turn r pid img).2.isSome = true →
    (submit_drawing_and_advance_turn r pid img).1 = r := by
  unfold submit_drawing_and_advance_turn
  split
  · intro _; rfl
  split
  · intro _; rfl
  · intro h
    simp at h

theorem judge_error_no_mutation (r : Room) :
    (judge_room r).2.isSome = true → (judge_room r).1 = r :=
  fun _ => judge_room_fst r

theorem play_again_error_characterized (r : Room) (pid : String) (k : Nat) (now : Int) :
    (play_again r pid k now).2.isSome = true →
    (play_again r pid k now).1 = r ∨
    (r.host_id = pid ∧ r.game_phase = GamePhase.game_over ∧
      r.players.length < MIN_PLAYERS_TO_START ∧
      (play_again r pid k now).1 = reset_game_state_fields r GamePhase.lobby) := by
  unfold play_again
  split
  · intro _
    exact Or.inl rfl
  split
  · intro _
    exact Or.inl rfl
  split
  · rename_i hhost hphase hlt
    intro _
    exact Or.inr ⟨not_ne_iff.mp hhost, not_ne_iff.mp hphase, hlt, rfl⟩
  · intro h
    simp at h

/-! ## The per-room invariant and its preservation -/

/-- Invariant of every reachable room: at least one player, the host is a
current player, submissions are unique per drawer, and a set topic comes
with a set round start time. -/
def RoomInv (r : Room) : Prop :=
  r.players ≠ [] ∧
  r.host_id ∈ r.players.map Player.id ∧
  (r.submitted_drawings.map SubmittedDrawing.drawer_id).Nodup ∧
  (r.current_topic.isSome → r.round_start_time.isSome)

theorem roomInv_create (room_name : Option String) (code host_id host_name : String) :
    RoomInv (create_new_room room_name code host_id host_name) := by
  refine ⟨by simp [create_new_room], ?_, by simp [create_new_room], by simp [create_new_room]⟩
  simp [create_new_room]

theorem roomInv_join (r : Room) (nid pname : String) (h : RoomInv r) :
    RoomInv (join_existing_room r nid pname).1 := by
  obtain ⟨hps, hhost, hnd, htop⟩ := h
  unfold join_existing_room
  split
  · exact ⟨hps, hhost, hnd, htop⟩
  split
  · exact ⟨hps, hhost, hnd, htop⟩
  refine ⟨by simp, ?_, hnd, htop⟩
  rw [List.map_append]
  exact List.mem_append_left _ hhost

theorem headD_id_mem {ps : List Player} (h : ps ≠ []) (d : Player) :
    (ps.headD d).id ∈ ps.map Player.id := by
  cases ps with
  | nil => exact absurd rfl h
  | cons a l => simp

theorem host_mem_filter {r : Room} {pid : String} (hneq : r.host_id ≠ pid)
    (hhost : r.host_id ∈ r.players.map Player.id) :
    r.host_id ∈ (r.players.filter (fun p => p.id != pid)).map Player.id := by
  rw [List.mem_map] at hhost ⊢
  obtain ⟨p, hp, hpid⟩ := hhost
  refine ⟨p, List.mem_filter.mpr ⟨hp, ?_⟩, hpid⟩
  simp only [bne_iff_ne, ne_eq, hpid]
  exact hneq

theorem roomInv_leave_update (r : Room) (pid : String) (hinv : RoomInv r)
    (hne : (r.players.filter (fun p => p.id != pid)).isEmpty = false) :
    RoomInv (leave_update r pid (r.players.filter (fun p => p.id != pid))) := by
  obtain ⟨hps, hhost, hnd, htop⟩ := hinv
  have hps_ne : r.players.filter (fun p => p.id != pid) ≠ [] := by
    intro hcon
    rw [hcon] at hne
    simp at hne
  have hhost_after : (if r.host_id = pid then
      ((r.players.filter (fun p => p.id != pid)).headD { id := "", name := "" }).id
      else r.host_id) ∈ (r.players.filter (fun p => p.id != pid)).map Player.id := by
    split
    · exact headD_id_mem hps_ne _
    · rename_i hneq
      exact host_mem_filter hneq hhost
  unfold leave_update
  simp only [player_id_in_drawings_eq_false, Bool.false_eq_true, if_false]
  split
  · exact ⟨hps_ne, hhost_after, hnd, by simp⟩
  · exact ⟨hps_ne, hhost_after, hnd, htop⟩

theorem roomInv_leave {r r' : Room} {pid : String}
    (hinv : RoomInv r) (h : leave_room r pid = some r') : RoomInv r' := by
  unfold leave_room at h
  split at h
  · injection h with h2
    subst h2
    exact hinv
  split at h
  · exact absurd h (by simp)
  · rename_i hne
    injection h with h2
    subst h2
    exact roomInv_leave_update r pid hinv (by simpa using hne)

theorem roomInv_start (r : Room) (pid : String) (k : Nat) (now : Int) (h : RoomInv r) :
    RoomInv (start_game r pid k now).1 := by
  obtain ⟨hps, hhost, hnd, htop⟩ := h
  unfold start_game
  split
  · exact ⟨hps, hhost, hnd, htop⟩
  split
  · exact ⟨hps, hhost, hnd, htop⟩
  split
  · exact ⟨hps, hhost, hnd, htop⟩
  exact ⟨hps, hhost, List.nodup_nil, fun _ => rfl⟩

theorem roomInv_submit (r : Room) (pid img : String) (h : RoomInv r) :
    RoomInv (submit_drawing_and_advance_turn r pid img).1 := by
  obtain ⟨hps, hhost, hnd, htop⟩ := h
  unfold submit_drawing_and_advance_turn
  split
  · exact ⟨hps, hhost, hnd, htop⟩
  split
  · exact ⟨hps, hhost, hnd, htop⟩
  rename_i hphase hdup
  have hpid : pid ∉ r.submitted_drawings.map SubmittedDrawing.drawer_id := by
    intro hm
    rw [List.mem_map] at hm
    obtain ⟨d, hd, hdid⟩ := hm
    exact hdup (List.any_eq_true.mpr ⟨d, hd, by simp [hdid]⟩)
  refine ⟨hps, hhost, ?_, htop⟩
  rw [List.map_append]
  rw [List.nodup_append]
  exact ⟨hnd, List.nodup_singleton _, by simpa using hpid⟩

theorem roomInv_play_again (r : Room) (pid : String) (k : Nat) (now : Int) (h : RoomInv r) :
    RoomInv (play_again r pid k now).1 := by
  obtain ⟨hps, hhost, hnd, htop⟩ := h
  unfold play_again
  split
  · exact ⟨hps, hhost, hnd, htop⟩
  split
  · exact ⟨hps, hhost, hnd, htop⟩
  split
  · exact ⟨hps, hhost, List.nodup_nil, by simp [reset_game_state_fields]⟩
  exact ⟨hps, hhost, List.nodup_nil, fun _ => rfl⟩

theorem roomInv_run (r : Room) (j : JudgeFn) (h : RoomInv r) :
    RoomInv (run_gemini_judgment r j) := by
  obtain ⟨f1, f2, f3, f4, f5, _⟩ := run_gemini_fields r j
  obtain ⟨hps, hhost, hnd, htop⟩ := h
  refine ⟨?_, ?_, ?_, ?_⟩
  · rw [f1]; exact hps
  · rw [f2, f1]; exact hhost
  · rw [f3]; exact hnd
  · rw [f4, f5]; exact htop

theorem roomInv_timeout (r : Room) (now : Int) (h : RoomInv r) :
    RoomInv (apply_timeout r now) := by
  unfold apply_timeout
  split
  · split
    · exact h
    · exact h
  · exact h

theorem roomInv_get (r : Room) (now : Int) (j : JudgeFn) (h : RoomInv r) :
    RoomInv (get_room_details r now j) := by
  unfold get_room_details
  dsimp only
  split
  · exact roomInv_run _ j (roomInv_timeout r now h)
  · exact roomInv_timeout r now h

/-- Every reachable room satisfies the invariant. -/
theorem reachable_inv {r : Room} (h : Reachable r) : RoomInv r := by
  induction h with
  | created rn c hid hn => exact roomInv_create rn c hid hn
  | stepJoin nid pn _ ih => exact roomInv_join _ nid pn ih
  | stepLeave pid _ hl ih => exact roomInv_leave ih hl
  | stepStart pid k now _ ih => exact roomInv_start _ pid k now ih
  | stepSubmit pid img _ ih => exact roomInv_submit _ pid img ih
  | stepPlayAgain pid k now _ ih => exact roomInv_play_again _ pid k now ih
  | stepJudge _ ih =>
    rw [judge_room_fst]
    exact ih
  | stepGet now j _ ih => exact roomInv_get _ now j ih
  | stepTask j _ ih => exact roomInv_run _ j ih

/-! ## Concrete scenario rooms used by the claim theorems -/

def c1_judge_first : JudgeFn := fun _ => { summary := "first summary", winner_name := "Alice" }

def c1_judge_second : JudgeFn := fun _ => { summary := "second summary", winner_name := "Bob" }

def c1_step1 : Room := (join_existing_room (create_new_room none "R1" "h" "Alice") "b" "Bob").1

def c1_step2 : Room := (start_game c1_step1 "h" 0 0).1

def c1_step3 : Room := (submit_drawing_and_advance_turn c1_step2 "h" "imgA").1

def c1_step4 : Room := (submit_drawing_and_advance_turn c1_step3 "b" "imgB").1

def c1_room : Room := run_gemini_judgment c1_step4 c1_judge_first

theorem c1_room_reachable : Reachable c1_room :=
  Reachable.stepTask c1_judge_first
    (Reachable.stepSubmit "b" "imgB"
      (Reachable.stepSubmit "h" "imgA"
        (Reachable.stepStart "h" 0 0
          (Reachable.stepJoin "b" "Bob"
            (Reachable.created none "R1" "h" "Alice")))))

/-- C1 (counterexample): a reachable room in game-over with a stored
judgment still passes the judge action (which enqueues the judgment task
with no presence guard), and when the task runs it overwrites the stored
result. -/
theorem c1_judgment_overwritten_by_judge_action :
    Reachable c1_room ∧
    c1_room.game_phase = GamePhase.game_over ∧
    c1_room.judgment_result.isSome = true ∧
    (judge_room c1_room).2 = none ∧
    (run_gemini_judgment c1_room c1_judge_second).judgment_result ≠ c1_room.judgment_result :=
  ⟨c1_room_reachable, by decide, by decide, by decide, by decide⟩

/-- C1 (amended): once judgment_result is set, a read of the room via get
never recomputes or overwrites it, in any phase; the explicit judge action,
however, re-enqueues judgment unconditionally. -/
theorem c1_get_never_recomputes_once_set (r : Room) (now : Int) (j : JudgeFn)
    (jr : JudgmentResult) (h : r.judgment_result = some jr) :
    (get_room_details r now j).judgment_result = some jr := by
  unfold get_room_details
  dsimp only
  have hj : (apply_timeout r now).judgment_result = some jr :=
    (apply_timeout_judgment r now).trans h
  split
  · rename_i hc
    exfalso
    have h2 := hc.2
    unfold judgment_absent at h2
    rw [hj] at h2
    simp at h2
  · exact hj

theorem c1_get_never_recomputes_once_set_witness :
    c1_room.judgment_result =
      some ({ summary := "first summary", winner_id := "h", winner_name := "Alice" }) ∧
    (get_room_details c1_room 1000 c1_judge_second).judgment_result =
      some ({ summary := "first summary", winner_id := "h", winner_name := "Alice" }) :=
  ⟨by decide, c1_get_never_recomputes_once_set c1_room 1000 c1_judge_second _ (by decide)⟩

def c2_judge : JudgeFn := fun _ => { summary := "round one verdict", winner_name := "Bob" }

def c2_step1 : Room := (join_existing_room (create_new_room none "R2" "h" "Alice") "b" "Bob").1

def c2_step2 : Room := (start_game c2_step1 "h" 0 0).1

def c2_step3 : Room := (submit_drawing_and_advance_turn c2_step2 "h" "imgA").1

def c2_step4 : Room := (submit_drawing_and_advance_turn c2_step3 "b" "imgB").1

def c2_room : Room := run_gemini_judgment c2_step4 c2_judge

theorem c2_room_reachable : Reachable c2_room :=
  Reachable.stepTask c2_judge
    (Reachable.stepSubmit "b" "imgB"
      (Reachable.stepSubmit "h" "imgA"
        (Reachable.stepStart "h" 0 0
          (Reachable.stepJoin "b" "Bob"
            (Reachable.created none "R2" "h" "Alice")))))

/-- C2: a reachable game-over room with a stored judgment and enough
players restarts successfully via play-again, yet the new round still
carries the previous round judgment_result, because
_reset_game_state_fields never clears that field.  The claim (cleared on
every round reset) is what the code should do but does not. -/
theorem c2_reset_keeps_judgment_result :
    Reachable c2_room ∧
    c2_room.judgment_result.isSome = true ∧
    MIN_PLAYERS_TO_START ≤ c2_room.players.length ∧
    (play_again c2_room "h" 1 5).2 = none ∧
    ((play_again c2_room "h" 1 5).1).game_phase = GamePhase.drawing ∧
    ((play_again c2_room "h" 1 5).1).judgment_result = c2_room.judgment_result :=
  ⟨c2_room_reachable, by decide, by decide, by decide, by decide, by decide⟩

def c3_step1 : Room := (join_existing_room (create_new_room none "R3" "h" "Alice") "b" "Bob").1

def c3_step2 : Room := (join_existing_room c3_step1 "c" "Carol").1

def c3_step3 : Room := (start_game c3_step2 "h" 0 0).1

def c3_room : Room := (submit_drawing_and_advance_turn c3_step3 "b" "imgB").1

def c3_after : Room := (leave_room c3_room "b").getD c3_room

theorem c3_room_reachable : Reachable c3_room :=
  Reachable.stepSubmit "b" "imgB"
    (Reachable.stepStart "h" 0 0
      (Reachable.stepJoin "c" "Carol"
        (Reachable.stepJoin "b" "Bob"
          (Reachable.created none "R3" "h" "Alice"))))

/-- C3: in a reachable three-player drawing room where player b has
submitted, b leaving succeeds and removes b from the players, but b's
drawing is still in submitted_drawings afterwards: the membership test on
line 165 of main.py compares the player id string against SubmittedDrawing
objects and is always false, so the removal branch is dead code. -/
theorem c3_leave_keeps_submission :
    Reachable c3_room ∧
    (c3_room.players.map Player.id).contains "b" = true ∧
    c3_room.submitted_drawings.map SubmittedDrawing.drawer_id = ["b"] ∧
    leave_room c3_room "b" = some c3_after ∧
    c3_after.players.all (fun p => p.id != "b") = true ∧
    c3_after.submitted_drawings.map SubmittedDrawing.drawer_id = ["b"] :=
  ⟨c3_room_reachable, by decide, by decide, by decide, by decide, by decide⟩

def c4_step1 : Room := (join_existing_room (create_new_room none "R4" "h" "Alice") "b" "Bob").1

def c4_step2 : Room := (start_game c4_step1 "h" 0 0).1

def c4_step3 : Room := (submit_drawing_and_advance_turn c4_step2 "h" "imgA").1

def c4_step4 : Room := (submit_drawing_and_advance_turn c4_step3 "b" "imgB").1

def c4_room : Room := (leave_room c4_step4 "b").getD c4_step4

theorem c4_room_reachable : Reachable c4_room :=
  Reachable.stepLeave "b"
    (Reachable.stepSubmit "b" "imgB"
      (Reachable.stepSubmit "h" "imgA"
        (Reachable.stepStart "h" 0 0
          (Reachable.stepJoin "b" "Bob"
            (Reachable.created none "R4" "h" "Alice")))))
    (by decide)

/-- C4 (counterexample): play-again on a reachable one-player game-over
room is rejected with BadRequest, yet the room state visibly changed (the
phase snapped back to lobby): the reset happens before the error is
raised. -/
theorem c4_play_again_shortfall_mutates :
    Reachable c4_room ∧
    c4_room.game_phase = GamePhase.game_over ∧
    c4_room.players.length < MIN_PLAYERS_TO_START ∧
    (play_again c4_room "h" 0 9).2 = some ApiError.badRequest ∧
    (play_again c4_room "h" 0 9).1.game_phase = GamePhase.lobby ∧
    (play_again c4_room "h" 0 9).1 ≠ c4_room :=
  ⟨c4_room_reachable, by decide, by decide, by decide, by decide, by decide⟩

/-- C4 (amended): every error outcome of join, start, submit and judge
leaves the room exactly as it was, and so does every error outcome of
play-again except its player-shortfall path (host caller, game-over
phase, too few players), the unique rejection that mutates: there the
room is reset to lobby before BadRequest is reported. -/
theorem c4_rejected_actions_no_mutation (r : Room) (nid pname pid img : String)
    (k : Nat) (now : Int) :
    ((join_existing_room r nid pname).2.isSome = true →
      (join_existing_room r nid pname).1 = r) ∧
    ((start_game r pid k now).2.isSome = true → (start_game r pid k now).1 = r) ∧
    ((submit_drawing_and_advance_turn r pid img).2.isSome = true →
      (submit_drawing_and_advance_turn r pid img).1 = r) ∧
    ((judge_room r).2.isSome = true → (judge_room r).1 = r) ∧
    ((play_again r pid k now).2.isSome = true →
      (play_again r pid k now).1 = r ∨
      (r.host_id = pid ∧ r.game_phase = GamePhase.game_over ∧
        r.players.length < MIN_PLAYERS_TO_START ∧
        (play_again r pid k now).1 = reset_game_state_fields r GamePhase.lobby)) :=
  ⟨join_error_no_mutation r nid pname,
   start_error_no_mutation r pid k now,
   submit_error_no_mutation r pid img,
   judge_error_no_mutation r,
   play_again_error_characterized r pid k now⟩

def c4_busy : Room :=
  { name := "Busy", code := "R4W", host_id := "h",
    players := [{ id := "h", name := "Alice" }, { id := "b", name := "Bob" }],
    game_phase := GamePhase.drawing, current_topic := some "Sun",
    round_start_time := some 0,
    submitted_drawings := [{ drawer_id := "h", drawer_name := "Alice",
                             topic := "Sun", image_b64 := "imgA" }] }

theorem c4_rejected_actions_no_mutation_witness :
    ((join_existing_room c4_busy "x" "Eve").2.isSome = true ∧
      (join_existing_room c4_busy "x" "Eve").1 = c4_busy) ∧
    ((start_game c4_busy "h" 0 0).2.isSome = true ∧ (start_game c4_busy "h" 0 0).1 = c4_busy) ∧
    ((submit_drawing_and_advance_turn c4_busy "h" "again").2.isSome = true ∧
      (submit_drawing_and_advance_turn c4_busy "h" "again").1 = c4_busy) ∧
    ((judge_room c4_busy).2.isSome = true ∧ (judge_room c4_busy).1 = c4_busy) ∧
    ((play_again c4_busy "h" 0 0).2.isSome = true ∧
      ((play_again c4_busy "h" 0 0).1 = c4_busy ∨
        (c4_busy.host_id = "h" ∧ c4_busy.game_phase = GamePhase.game_over ∧
          c4_busy.players.length < MIN_PLAYERS_TO_START ∧
          (play_again c4_busy "h" 0 0).1 = reset_game_state_fields c4_busy GamePhase.lobby))) :=
  ⟨⟨by decide, (c4_rejected_actions_no_mutation c4_busy "x" "Eve" "h" "again" 0 0).1 (by decide)⟩,
   ⟨by decide, (c4_rejected_actions_no_mutation c4_busy "x" "Eve" "h" "again" 0 0).2.1 (by decide)⟩,
   ⟨by decide,
     (c4_rejected_actions_no_mutation c4_busy "x" "Eve" "h" "again" 0 0).2.2.1 (by decide)⟩,
   ⟨by decide,
     (c4_rejected_actions_no_mutation c4_busy "x" "Eve" "h" "again" 0 0).2.2.2.1 (by decide)⟩,
   ⟨by decide,
     (c4_rejected_actions_no_mutation c4_busy "x" "Eve" "h" "again" 0 0).2.2.2.2 (by decide)⟩⟩

def c5_step1 : Room := (join_existing_room (create_new_room none "R5" "h" "Alice") "b" "Bob").1

def c5_step2 : Room := (start_game c5_step1 "h" 0 0).1

def c5_room : Room := (leave_room c5_step2 "b").getD c5_step2

theorem c5_step2_reachable : Reachable c5_step2 :=
  Reachable.stepStart "h" 0 0
    (Reachable.stepJoin "b" "Bob" (Reachable.created none "R5" "h" "Alice"))

theorem c5_room_reachable : Reachable c5_room :=
  Reachable.stepLeave "b" c5_step2_reachable (by decide)

/-- C5 (counterexample): after a leave aborts an active round (remaining
players below the minimum), the reachable room has current_topic unset but
round_start_time still set: the abort clears only the topic. -/
theorem c5_topic_cleared_start_time_kept :
    Reachable c5_room ∧
    c5_room.game_phase = GamePhase.game_over ∧
    c5_room.current_topic = none ∧
    c5_room.round_start_time = some 0 :=
  ⟨c5_room_reachable, by decide, by decide, by decide⟩

/-- C5 (amended): in every reachable room, a set current_topic implies a
set round_start_time; the converse direction fails after a round abort on
leave. -/
theorem c5_topic_set_implies_start_time_set {r : Room} (h : Reachable r)
    (ht : r.current_topic.isSome = true) : r.round_start_time.isSome = true :=
  (reachable_inv h).2.2.2 ht

theorem c5_topic_set_implies_start_time_set_witness :
    Reachable c5_step2 ∧ c5_step2.current_topic.isSome = true ∧
    c5_step2.round_start_time.isSome = true :=
  ⟨c5_step2_reachable, by decide,
   c5_topic_set_implies_start_time_set c5_step2_reachable (by decide)⟩

def c6_step1 : Room := (join_existing_room (create_new_room none "R6" "h" "Alice") "b" "Bob").1

def c6_room : Room := (start_game c6_step1 "h" 0 0).1

def c6_after : Room := (submit_drawing_and_advance_turn c6_room "zzz" "img").1

theorem c6_room_reachable : Reachable c6_room :=
  Reachable.stepStart "h" 0 0
    (Reachable.stepJoin "b" "Bob" (Reachable.created none "R6" "h" "Alice"))

theorem c6_after_reachable : Reachable c6_after :=
  Reachable.stepSubmit "zzz" "img" c6_room_reachable

/-- C6 (counterexample): a submit whose player id belongs to no player of
the room is accepted in a reachable drawing room (recorded with drawer
name Unknown Drawer), so an entry's drawer_id need not have been a member
at submission time. -/
theorem c6_nonmember_submission_accepted :
    Reachable c6_room ∧
    (c6_room.players.map Player.id).contains "zzz" = false ∧
    (submit_drawing_and_advance_turn c6_room "zzz" "img").2 = none ∧
    c6_after.submitted_drawings.map SubmittedDrawing.drawer_id = ["zzz"] ∧
    c6_after.submitted_drawings.map SubmittedDrawing.drawer_name = ["Unknown Drawer"] :=
  ⟨c6_room_reachable, by decide, by decide, by decide, by decide⟩

/-- C6 (amended): in every reachable room, submitted_drawings has at most
one entry per player id (the drawer ids are pairwise distinct); entries
are not restricted to ids of room members. -/
theorem c6_at_most_one_submission_per_player {r : Room} (h : Reachable r) :
    (r.submitted_drawings.map SubmittedDrawing.drawer_id).Nodup :=
  (reachable_inv h).2.2.1

theorem c6_at_most_one_submission_per_player_witness :
    Reachable c6_after ∧
    (c6_after.submitted_drawings.map SubmittedDrawing.drawer_id).Nodup :=
  ⟨c6_after_reachable, c6_at_most_one_submission_per_player c6_after_reachable⟩

/-- C7: whenever get reads a drawing-phase room whose start time lies at
least round_duration_seconds in the past, the returned snapshot is in
game-over, with no other action required. -/
theorem c7_lazy_timeout_on_get (r : Room) (now t : Int) (j : JudgeFn)
    (hphase : r.game_phase = GamePhase.drawing)
    (hstart : r.round_start_time = some t)
    (helapsed : r.round_duration_seconds ≤ now - t) :
    (get_room_details r now j).game_phase = GamePhase.game_over := by
  unfold get_room_details
  dsimp only
  have hto := apply_timeout_expired r now t hphase hstart helapsed
  split
  · exact ((run_gemini_fields _ j).2.2.2.2.2).trans hto
  · exact hto

def c7_room : Room :=
  { name := "Timed", code := "R7", host_id := "h",
    players := [{ id := "h", name := "Alice" }, { id := "b", name := "Bob" }],
    game_phase := GamePhase.drawing, current_topic := some "Sun",
    round_start_time := some 0 }

theorem c7_lazy_timeout_on_get_witness :
    c7_room.game_phase = GamePhase.drawing ∧
    c7_room.round_start_time = some 0 ∧
    c7_room.round_duration_seconds ≤ 1000 - 0 ∧
    (get_room_details c7_room 1000
      (fun _ => { summary := "verdict", winner_name := "" })).game_phase =
      GamePhase.game_over :=
  ⟨by decide, by decide, by decide,
   c7_lazy_timeout_on_get c7_room 1000 0
     (fun _ => { summary := "verdict", winner_name := "" })
     (by decide) (by decide) (by decide)⟩

/-- C8: a successful submit that brings the submission count to at least
the current player count moves the room to game-over as part of that same
submit. -/
theorem c8_full_submission_early_end (r : Room) (pid img : String)
    (hphase : r.game_phase = GamePhase.drawing)
    (hdup : r.submitted_drawings.any (fun d => d.drawer_id == pid) = false)
    (hcount : r.players.length ≤ r.submitted_drawings.length + 1) :
    (submit_drawing_and_advance_turn r pid img).2 = none ∧
    (submit_drawing_and_advance_turn r pid img).1.game_phase = GamePhase.game_over := by
  unfold submit_drawing_and_advance_turn
  rw [if_neg (by simp [hphase])]
  rw [if_neg (by simp [hdup])]
  refine ⟨rfl, ?_⟩
  dsimp only
  rw [if_pos (by simpa using hcount)]

def c8_room : Room :=
  { name := "Nearly done", code := "R8", host_id := "h",
    players := [{ id := "h", name := "Alice" }, { id := "b", name := "Bob" }],
    game_phase := GamePhase.drawing, current_topic := some "Sun",
    round_start_time := some 0,
    submitted_drawings := [{ drawer_id := "h", drawer_name := "Alice",
                             topic := "Sun", image_b64 := "imgA" }] }

theorem c8_full_submission_early_end_witness :
    c8_room.game_phase = GamePhase.drawing ∧
    c8_room.submitted_drawings.any (fun d => d.drawer_id == "b") = false ∧
    c8_room.players.length ≤ c8_room.submitted_drawings.length + 1 ∧
    (submit_drawing_and_advance_turn c8_room "b" "imgB").2 = none ∧
    (submit_drawing_and_advance_turn c8_room "b" "imgB").1.game_phase =
      GamePhase.game_over :=
  ⟨by decide, by decide, by decide,
   (c8_full_submission_early_end c8_room "b" "imgB" (by decide) (by decide) (by decide)).1,
   (c8_full_submission_early_end c8_room "b" "imgB" (by decide) (by decide) (by decide)).2⟩

/-- C9: in drawing phase, a submit for a player id that already has a
submission this round is rejected with BadRequest and the room, in
particular submitted_drawings, is returned unchanged. -/
theorem c9_duplicate_submission_rejected (r : Room) (pid img : String)
    (hphase : r.game_phase = GamePhase.drawing)
    (hdup : r.submitted_drawings.any (fun d => d.drawer_id == pid) = true) :
    submit_drawing_and_advance_turn r pid img = (r, some ApiError.badRequest) := by
  unfold submit_drawing_and_advance_turn
  rw [if_neg (by simp [hphase])]
  rw [if_pos hdup]

def c9_room : Room :=
  { name := "Eager", code := "R9", host_id := "h",
    players := [{ id := "h", name := "Alice" }, { id := "b", name := "Bob" }],
    game_phase := GamePhase.drawing, current_topic := some "Sun",
    round_start_time := some 0,
    submitted_drawings := [{ drawer_id := "h", drawer_name := "Alice",
                             topic := "Sun", image_b64 := "imgA" }] }

theorem c9_duplicate_submission_rejected_witness :
    c9_room.game_phase = GamePhase.drawing ∧
    c9_room.submitted_drawings.any (fun d => d.drawer_id == "h") = true ∧
    submit_drawing_and_advance_turn c9_room "h" "imgAgain" =
      (c9_room, some ApiError.badRequest) :=
  ⟨by decide, by decide,
   c9_duplicate_submission_rejected c9_room "h" "imgAgain" (by decide) (by decide)⟩

/-- C10: in every reachable room with a non-empty player list, host_id is
the id of one of the current players. -/
theorem c10_host_is_member {r : Room} (h : Reachable r) (hne : r.players ≠ []) :
    r.host_id ∈ r.players.map Player.id :=
  (reachable_inv h).2.1

def c10_room : Room := create_new_room none "RTEN" "hx" "Host"

theorem c10_host_is_member_witness :
    Reachable c10_room ∧ c10_room.players ≠ [] ∧
    c10_room.host_id ∈ c10_room.players.map Player.id :=
  ⟨Reachable.created none "RTEN" "hx" "Host", by decide,
   c10_host_is_member (Reachable.created none "RTEN" "hx" "Host") (by decide)⟩

end DrawingBoard
